import Mathlib

/-!
Verification of the ka9q-python repository's packet-header parsing,
sequence/timestamp wraparound arithmetic, TLV command encoding/decoding,
status-response decoding, channel discovery and wallclock conversion,
as a shallow embedding of the Python sources.

Conventions of the embedding:
* Python `bytes` / `bytearray` values are `List Nat` whose elements are
  byte values (each element `< 256` when produced by the modelled code).
* Python `int` is `Nat` where the source guarantees non-negativity
  (byte values, lengths) and `Int` where it does not.
* Python floats that only flow through the code as opaque payloads are
  kept as their raw big-endian IEEE-754 byte lists; no float arithmetic
  is performed on them by the modelled code paths.
* Code that can raise returns `Except PyErr _`; `PyErr` distinguishes the
  exception classes the sources raise.
-/

namespace Ka9q

/-- Exception classes raised by the modelled Python code:
`ValidationError` (ka9q/exceptions.py), `AttributeError` (attribute lookup
on a class that lacks it), `ValueError` (e.g. `bytearray.append` out of
range) and `struct.error` (wrong-sized buffer for `struct.unpack`). -/
inductive PyErr where
  | validationError (msg : String)
  | attributeError (msg : String)
  | valueError (msg : String)
  | structError
deriving DecidableEq, Repr

/-- Reduction of `Except` bind on a success value (used to unfold the
`do` blocks of the embedded functions). -/
@[simp] theorem except_ok_bind {ε α β : Type} (a : α) (f : α → Except ε β) :
    (Except.ok a : Except ε α) >>= f = f a := rfl

/-- `pure` on `Except` is `Except.ok`. -/
@[simp] theorem except_pure_eq {ε α : Type} (a : α) :
    (pure a : Except ε α) = Except.ok a := rfl

/-- Reduction of `Except` bind on an error (exception propagation). -/
@[simp] theorem except_error_bind {ε α β : Type} (e : ε) (f : α → Except ε β) :
    (Except.error e : Except ε α) >>= f = Except.error e := rfl

/-- Big-endian value of a byte list: the mathematical meaning of
`struct.unpack` with formats such as `>H`, `>I`, `>Q` applied to an
exactly-sized buffer. -/
def be_value (bytes : List Nat) : Nat :=
  bytes.foldl (fun a b => a * 256 + b) 0

/-- `struct.unpack` of a big-endian unsigned field of `n` bytes:
raises `struct.error` when the buffer size does not match the format. -/
def unpack_be (n : Nat) (bytes : List Nat) : Except PyErr Nat :=
  if bytes.length = n then .ok (be_value bytes) else .error .structError

/-- The tuple `(header_len, ssrc, timestamp, sequence)` returned by
`parse_rtp_header` in diagnose_packets.py. -/
structure RTPHeaderInfo where
  header_len : Nat
  ssrc : Nat
  timestamp : Nat
  sequence : Nat
deriving DecidableEq, Repr

/-- `parse_rtp_header` (diagnose_packets.py, lines 18-28):
returns `None` for datagrams of fewer than 12 bytes, otherwise unpacks
sequence (`>H` at 2:4), timestamp (`>I` at 4:8), ssrc (`>I` at 8:12) and
computes `header_len = 12 + 4 * csrc_count` from the low 4 bits of the
first byte. -/
def parse_rtp_header (data : List Nat) : Except PyErr (Option RTPHeaderInfo) :=
  if data.length < 12 then .ok none
  else do
    let first_byte := data.headD 0
    let csrc_count := first_byte &&& 0x0F
    let sequence ← unpack_be 2 ((data.drop 2).take 2)
    let timestamp ← unpack_be 4 ((data.drop 4).take 4)
    let ssrc ← unpack_be 4 ((data.drop 8).take 4)
    let header_len := 12 + 4 * csrc_count
    .ok (some ⟨header_len, ssrc, timestamp, sequence⟩)

/-- State accumulated by the capture loop of `diagnose_stream`
(diagnose_packets.py, lines 102-134). `payload_sizes` models the
`Counter` as an association list size ↦ count. -/
structure CaptureState where
  total_packets : Nat
  filtered_packets : Nat
  payload_sizes : List (Nat × Nat)
  timestamps : List Nat
  sequences : List Nat
deriving DecidableEq, Repr

/-- `Counter.__getitem__ += 1`: bump the count of `k`, inserting it at
count 1 when absent. -/
def counter_add (c : List (Nat × Nat)) (k : Nat) : List (Nat × Nat) :=
  match c with
  | [] => [(k, 1)]
  | (k2, n) :: rest => if k2 = k then (k2, n + 1) :: rest else (k2, n) :: counter_add rest k

/-- One iteration of the capture loop body of `diagnose_stream`
(diagnose_packets.py, lines 114-131): count the datagram, parse its
header, `continue` (drop) on parse failure or SSRC mismatch, otherwise
record payload size, timestamp and sequence. -/
def capture_step (target_ssrc : Nat) (st : CaptureState) (data : List Nat) :
    Except PyErr CaptureState := do
  let st1 := { st with total_packets := st.total_packets + 1 }
  match ← parse_rtp_header data with
  | none => pure st1
  | some h =>
    if h.ssrc ≠ target_ssrc then pure st1
    else
      let payload := data.drop h.header_len
      pure { st1 with
        filtered_packets := st1.filtered_packets + 1
        payload_sizes := counter_add st1.payload_sizes payload.length
        timestamps := st1.timestamps ++ [h.timestamp]
        sequences := st1.sequences ++ [h.sequence] }

/-- The capture loop of `diagnose_stream` over the finite sequence of
datagrams received during the capture window. -/
def capture_loop (target_ssrc : Nat) (st : CaptureState) :
    List (List Nat) → Except PyErr CaptureState
  | [] => .ok st
  | d :: ds => do capture_loop target_ssrc (← capture_step target_ssrc st d) ds

/-- Timestamp-delta computation of `diagnose_stream`
(diagnose_packets.py, lines 171-175):
`diff = (timestamps[i] - timestamps[i-1]) & 0xFFFFFFFF` followed by
`if diff > 0x80000000: diff -= 0x100000000`.  On Python ints,
`& 0xFFFFFFFF` is exactly reduction mod 2^32 (also for negative values),
which matches `Int.emod` by a positive modulus. -/
def ts_delta (a b : Nat) : Int :=
  let diff := ((a : Int) - (b : Int)) % 0x100000000
  if diff > 0x80000000 then diff - 0x100000000 else diff

/-- Inner recursion of the sequence analysis of `diagnose_stream`
(diagnose_packets.py, lines 187-192): given the previous sequence
number, count packets whose sequence differs from
`(previous + 1) & 0xFFFF`. -/
def seq_gaps_from (prev : Nat) : List Nat → Nat
  | [] => 0
  | s :: rest => (if s ≠ (prev + 1) &&& 0xFFFF then 1 else 0) + seq_gaps_from s rest

/-- `seq_gaps` counting of the sequence analysis of `diagnose_stream`
over the captured list of sequence numbers. -/
def count_seq_gaps : List Nat → Nat
  | [] => 0
  | s :: rest => seq_gaps_from s rest

/-! ### Helper lemmas about `parse_rtp_header` -/

/-- On a datagram of at least 12 bytes, parsing succeeds and yields the
header fields computed from the fixed-offset slices. -/
theorem parse_rtp_header_of_le (data : List Nat) (hlen : 12 ≤ data.length) :
    parse_rtp_header data = .ok (some
      { header_len := 12 + 4 * (data.headD 0 &&& 0x0F)
        ssrc := be_value ((data.drop 8).take 4)
        timestamp := be_value ((data.drop 4).take 4)
        sequence := be_value ((data.drop 2).take 2) }) := by
  have h2 : ((data.drop 2).take 2).length = 2 := by
    simp [List.length_take, List.length_drop]; omega
  have h4 : ((data.drop 4).take 4).length = 4 := by
    simp [List.length_take, List.length_drop]; omega
  have h8 : ((data.drop 8).take 4).length = 4 := by
    simp [List.length_take, List.length_drop]; omega
  have hnot : ¬ data.length < 12 := by omega
  simp [parse_rtp_header, hnot, unpack_be, h2, h4, h8]

/-- Parsing never raises: every datagram yields `.ok` (either `none` or
a header). -/
theorem parse_rtp_header_total (data : List Nat) :
    ∃ r, parse_rtp_header data = .ok r := by
  by_cases h : data.length < 12
  · exact ⟨none, by simp [parse_rtp_header, h]⟩
  · exact ⟨_, parse_rtp_header_of_le data (by omega)⟩

/-! ### C2 — truncation check in `parse_rtp_header` -/

/-- C2 counterexample: a 12-byte datagram whose first byte declares
CSRC count 1, so the implied payload offset 16 exceeds the datagram
length 12; the claim says parsing must fail, but `parse_rtp_header`
succeeds and returns a header with `header_len = 16`. -/
theorem c2_counterexample :
    parse_rtp_header [1, 0, 0, 0, 0, 0, 0, 0, 0, 0, 0, 0] = .ok (some ⟨16, 0, 0, 0⟩)
    ∧ ([1, 0, 0, 0, 0, 0, 0, 0, 0, 0, 0, 0] : List Nat).length < 16 := by
  constructor
  · rfl
  · decide

/-- C2 (amended): `parse_rtp_header` fails (returns `None`) exactly when
the datagram has fewer than 12 bytes; the declared CSRC count is never
checked against the datagram length. -/
theorem c2_parse_fails_iff_truncated (data : List Nat) :
    parse_rtp_header data = .ok none ↔ data.length < 12 := by
  constructor
  · intro h
    by_contra hlen
    rw [parse_rtp_header_of_le data (by omega)] at h
    simp at h
  · intro h
    simp [parse_rtp_header, h]

/-! ### C5 — payload-offset invariant -/

/-- C5: every accepted datagram yields `header_len` equal to 12 plus 4
bytes per declared CSRC word (low 4 bits of the first byte), hence
between 12 and 72. -/
theorem c5_payload_offset_invariant (data : List Nat) (h : RTPHeaderInfo)
    (hp : parse_rtp_header data = .ok (some h)) :
    h.header_len = 12 + 4 * (data.headD 0 &&& 0x0F)
    ∧ 12 ≤ h.header_len ∧ h.header_len ≤ 72 := by
  by_cases hlen : data.length < 12
  · simp [parse_rtp_header, hlen] at hp
  · rw [parse_rtp_header_of_le data (by omega)] at hp
    have hcs : data.headD 0 &&& 0x0F ≤ 0x0F := Nat.and_le_right
    simp only [Except.ok.injEq, Option.some.injEq] at hp
    subst hp
    refine ⟨rfl, ?_, ?_⟩ <;> (dsimp only; omega)

/-- C5 witness: a concrete 12-byte datagram with CSRC count 0. -/
theorem c5_witness :
    parse_rtp_header [0, 0, 0, 0, 0, 0, 0, 0, 0, 0, 0, 0] = .ok (some ⟨12, 0, 0, 0⟩)
    ∧ (12 : Nat) = 12 + 4 * (([0, 0, 0, 0, 0, 0, 0, 0, 0, 0, 0, 0] : List Nat).headD 0 &&& 0x0F)
    ∧ 12 ≤ 12 ∧ (12 : Nat) ≤ 72 := by
  have hp : parse_rtp_header [0, 0, 0, 0, 0, 0, 0, 0, 0, 0, 0, 0] =
      .ok (some ⟨12, 0, 0, 0⟩) := by rfl
  have h := c5_payload_offset_invariant [0, 0, 0, 0, 0, 0, 0, 0, 0, 0, 0, 0] ⟨12, 0, 0, 0⟩ hp
  exact ⟨hp, h.1, h.2.1, h.2.2⟩

/-! ### C7 — malformed datagrams never abort the capture loop -/

/-- A capture step on a datagram failing header parsing only counts the
packet. -/
theorem capture_step_none (target : Nat) (st : CaptureState) (d : List Nat)
    (hd : parse_rtp_header d = .ok none) :
    capture_step target st d = .ok { st with total_packets := st.total_packets + 1 } := by
  simp [capture_step, hd]

/-- A capture step on a parsed packet for a different SSRC only counts
the packet. -/
theorem capture_step_mismatch (target : Nat) (st : CaptureState) (d : List Nat)
    (h : RTPHeaderInfo) (hd : parse_rtp_header d = .ok (some h))
    (hs : h.ssrc ≠ target) :
    capture_step target st d = .ok { st with total_packets := st.total_packets + 1 } := by
  simp [capture_step, hd, hs]

/-- A capture step on a parsed packet for the target SSRC records the
payload size, timestamp and sequence. -/
theorem capture_step_match (target : Nat) (st : CaptureState) (d : List Nat)
    (h : RTPHeaderInfo) (hd : parse_rtp_header d = .ok (some h))
    (hs : h.ssrc = target) :
    capture_step target st d = .ok { st with
      total_packets := st.total_packets + 1
      filtered_packets := st.filtered_packets + 1
      payload_sizes := counter_add st.payload_sizes (d.drop h.header_len).length
      timestamps := st.timestamps ++ [h.timestamp]
      sequences := st.sequences ++ [h.sequence] } := by
  simp [capture_step, hd, hs]

/-- Every capture step succeeds (never raises). -/
theorem capture_step_total (target : Nat) (st : CaptureState) (d : List Nat) :
    ∃ st2, capture_step target st d = .ok st2 := by
  obtain ⟨r, hr⟩ := parse_rtp_header_total d
  cases r with
  | none => exact ⟨_, capture_step_none target st d hr⟩
  | some h =>
    by_cases hs : h.ssrc = target
    · exact ⟨_, capture_step_match target st d h hr hs⟩
    · exact ⟨_, capture_step_mismatch target st d h hr hs⟩

/-- C7: a datagram that fails header parsing is dropped — the loop
continues on the remaining datagrams with only `total_packets` bumped —
and the capture loop never raises an exception, on any datagram list. -/
theorem c7_parse_failure_never_fatal (target : Nat) (st : CaptureState)
    (d : List Nat) (ds : List (List Nat))
    (hd : parse_rtp_header d = .ok none) :
    capture_loop target st (d :: ds) =
      capture_loop target { st with total_packets := st.total_packets + 1 } ds
    ∧ ∀ (ds2 : List (List Nat)) (st2 : CaptureState),
        ∃ st3, capture_loop target st2 ds2 = .ok st3 := by
  constructor
  · simp [capture_loop, capture_step_none target st d hd]
  · intro ds2
    induction ds2 with
    | nil => intro st2; exact ⟨st2, rfl⟩
    | cons d2 ds2 ih =>
      intro st2
      obtain ⟨st3, hst3⟩ := capture_step_total target st2 d2
      obtain ⟨st4, hst4⟩ := ih st3
      exact ⟨st4, by simp [capture_loop, hst3, hst4]⟩

/-- C7 witness: the empty datagram fails parsing, is dropped from a
concrete state, and the loop stays exception-free. -/
theorem c7_witness :
    capture_loop 0 ⟨0, 0, [], [], []⟩ [[]] =
      capture_loop 0 ⟨1, 0, [], [], []⟩ []
    ∧ ∀ (ds2 : List (List Nat)) (st2 : CaptureState),
        ∃ st3, capture_loop 0 st2 ds2 = .ok st3 :=
  c7_parse_failure_never_fatal 0 ⟨0, 0, [], [], []⟩ [] [] (by rfl)

/-! ### C3 — 32-bit timestamp delta -/

/-- C3 counterexample: at the exact half-range distance 2^31 the code
returns +2^31 (the guard is a strict `>`), while the claimed formula
`((a - b + 2^31) mod 2^32) - 2^31` returns -2^31; the claimed result
range `[-2^31, 2^31 - 1]` is also violated. -/
theorem c3_counterexample :
    ts_delta 0x80000000 0 = 2147483648
    ∧ ts_delta 0x80000000 0 ≠
        ((0x80000000 : Int) - (0 : Int) + 2147483648) % 4294967296 - 2147483648
    ∧ ¬ ts_delta 0x80000000 0 ≤ 2147483647 := by
  refine ⟨by decide, by decide, by decide⟩

/-- C3 (amended): for 32-bit timestamps the code's delta equals
`((a - b + 2^31 - 1) mod 2^32) - (2^31 - 1)`: the tie at exact
half-range is mapped to +2^31, so the result lies in
`[-(2^31 - 1), 2^31]` rather than `[-2^31, 2^31 - 1]`. -/
theorem c3_ts_delta_wraparound (a b : Nat)
    (ha : a < 4294967296) (hb : b < 4294967296) :
    ts_delta a b = ((a : Int) - (b : Int) + 2147483647) % 4294967296 - 2147483647
    ∧ -2147483647 ≤ ts_delta a b ∧ ts_delta a b ≤ 2147483648 := by
  have hdef : ts_delta a b =
      if ((a : Int) - (b : Int)) % 4294967296 > 2147483648
      then ((a : Int) - (b : Int)) % 4294967296 - 4294967296
      else ((a : Int) - (b : Int)) % 4294967296 := rfl
  rw [hdef]
  split <;> omega

/-- C3 witness at a concrete wraparound pair (old timestamp near the
top of the range, new one past zero). -/
theorem c3_witness :
    (4294967290 : Nat) < 4294967296 ∧ (10 : Nat) < 4294967296
    ∧ (ts_delta 10 4294967290 =
        ((10 : Int) - (4294967290 : Int) + 2147483647) % 4294967296 - 2147483647
      ∧ -2147483647 ≤ ts_delta 10 4294967290 ∧ ts_delta 10 4294967290 ≤ 2147483648) :=
  ⟨by decide, by decide, c3_ts_delta_wraparound 10 4294967290 (by decide) (by decide)⟩

/-! ### C4 — sequence contiguity across 16-bit wraparound -/

/-- C4: a packet is counted contiguous (no gap) exactly when its
sequence equals `(previous + 1) mod 65536`; in particular 65535
followed by 0 is contiguous. -/
theorem c4_seq_contiguity (p s : Nat) :
    (count_seq_gaps [p, s] = 0 ↔ s = (p + 1) % 65536)
    ∧ count_seq_gaps [65535, 0] = 0 := by
  have hmask : (p + 1) &&& 0xFFFF = (p + 1) % 65536 := by
    have h : (0xFFFF : Nat) = 2 ^ 16 - 1 := by norm_num
    rw [h, Nat.and_pow_two_sub_one_eq_mod]
  refine ⟨?_, by decide⟩
  simp [count_seq_gaps, seq_gaps_from, hmask]

/-! ### C1 — wallclock conversion (spec-modelled) -/

/-- Modelled from the spec: the module `ka9q/rtp_recorder.py` that
defines `rtp_to_wallclock` is not under src/ (only its callers
`ka9q/__init__.py` and `repro_utc_bug.py` are present), so the time
reference is taken from §3 "TimeReference": a device timestamp paired
with a GPS-epoch absolute time in nanoseconds. -/
structure TimeReference where
  device_timestamp : Nat
  absolute_time_reference_ns : Int
deriving DecidableEq, Repr

/-- Modelled from the spec: §4.2 wraparound-aware signed distance
`((a - b + 32768) mod 65536) - 32768`, carried to 32 bits as directed
by §4.3/§4.4 step 1. -/
def signed_distance_32 (a b : Nat) : Int :=
  ((a : Int) - (b : Int) + 2147483648) % 4294967296 - 2147483648

/-- Modelled from the spec: `rtp_to_wallclock` of the absent module
`ka9q/rtp_recorder.py`, per §4.4 steps 1-5: sample delta over the
device clock, elapsed seconds at the sample rate, GPS seconds from the
nanosecond reference, then Unix seconds via the fixed GPS epoch offset
315964800 minus the cumulative leap-second count. Real arithmetic is
modelled with exact rationals; `current_leap_seconds` is passed as a
parameter (§9 leaves its sourcing to the implementer). -/
def rtp_to_wallclock (device_timestamp : Nat) (reference : TimeReference)
    (sample_rate : Nat) (current_leap_seconds : Int) : ℚ :=
  let sample_delta : Int := signed_distance_32 device_timestamp reference.device_timestamp
  let elapsed_seconds : ℚ := (sample_delta : ℚ) / (sample_rate : ℚ)
  let gps_seconds : ℚ := (reference.absolute_time_reference_ns : ℚ) / 1000000000 + elapsed_seconds
  gps_seconds + 315964800 - (current_leap_seconds : ℚ)

/-- C1: with the reference device timestamp 1000 mapped to GPS
nanoseconds corresponding to Unix time 1704067200 under 18 leap seconds
(GPS seconds 1704067200 - 315964800 + 18 = 1388102418, as constructed
in repro_utc_bug.py), converting device timestamp 1000 yields exactly
1704067200 for every sample rate — the leap-second count is
subtracted, so the defective value 1704067218 is never produced. -/
theorem c1_leap_second_regression (sample_rate : Nat) :
    rtp_to_wallclock 1000 ⟨1000, 1388102418000000000⟩ sample_rate 18 = 1704067200
    ∧ rtp_to_wallclock 1000 ⟨1000, 1388102418000000000⟩ sample_rate 18 ≠ 1704067218 := by
  have hsd : signed_distance_32 1000 1000 = 0 := by decide
  have h : rtp_to_wallclock 1000 ⟨1000, 1388102418000000000⟩ sample_rate 18 = 1704067200 := by
    simp [rtp_to_wallclock, hsd]
    norm_num
  exact ⟨h, by rw [h]; norm_num⟩

/-! ### C8 — TLV integer encode/decode round trip -/

/-- `int.to_bytes(n, byteorder="big")` for `x < 256^n`: fixed-width
big-endian byte list. -/
def int_to_bytes_be : Nat → Nat → List Nat
  | 0, _ => []
  | n + 1, x => int_to_bytes_be n (x / 256) ++ [x % 256]

/-- `encode_int64` (ka9q/control.py, lines 168-208): TLV-encode a
64-bit integer, appending the type byte, a length byte and the value
bytes with leading zeros stripped (zero encodes with length 0); returns
the grown buffer and the byte count `2 + length`.
`bytearray.append` of an out-of-range int raises `ValueError`, modelled
for the type byte (length and value bytes are in range by
construction). -/
def encode_int64 (buf : List Nat) (type_val : Nat) (x : Int) :
    Except PyErr (List Nat × Nat) :=
  if x < 0 then .error (.validationError "Cannot encode negative integer")
  else if 18446744073709551616 ≤ x then
    .error (.validationError "Integer too large for 64-bit encoding")
  else if 256 ≤ type_val then .error (.valueError "byte must be in range 0 to 256")
  else if x = 0 then .ok (buf ++ [type_val, 0], 2)
  else
    let x_bytes := int_to_bytes_be 8 x.toNat
    let value_bytes := x_bytes.dropWhile (fun b => b == 0)
    let length := value_bytes.length
    .ok (buf ++ [type_val, length] ++ value_bytes, 2 + length)

/-- `decode_int` (ka9q/control.py, lines 341-369): big-endian decode of
the first `length` bytes, with `length = 0` decoding to 0, lengths over
8 truncated to 8, and insufficient data raising `ValidationError`. -/
def decode_int (data : List Nat) (length : Int) : Except PyErr Nat :=
  if length < 0 then .error (.validationError "Negative length in decode_int")
  else if length = 0 then .ok 0
  else
    let length2 := if 8 < length then 8 else length
    if (data.length : Int) < length2 then .error (.validationError "Insufficient data")
    else .ok ((data.take length2.toNat).foldl (fun value b => (value <<< 8) ||| b) 0)

/-- A byte below 256 ORed into a value shifted left by 8 is plain
positional addition. -/
theorem or_low_byte (v b : Nat) (hb : b < 256) : (v <<< 8) ||| b = v * 256 + b := by
  have h1 : v <<< 8 = 2 ^ 8 * v := by rw [Nat.shiftLeft_eq]; ring
  have hb2 : b < 2 ^ 8 := by norm_num at hb ⊢; omega
  rw [h1, ← Nat.mul_add_lt_is_or hb2 v]
  ring

/-- `int_to_bytes_be` always yields exactly `n` bytes. -/
theorem int_to_bytes_be_length (n x : Nat) : (int_to_bytes_be n x).length = n := by
  induction n generalizing x with
  | zero => rfl
  | succ n ih => simp [int_to_bytes_be, ih]

/-- The shift-or accumulation of `decode_int` over a fixed-width
big-endian byte list recovers the encoded value. -/
theorem foldl_or_int_to_bytes (n : Nat) : ∀ (x v : Nat), x < 256 ^ n →
    (int_to_bytes_be n x).foldl (fun value b => (value <<< 8) ||| b) v = v * 256 ^ n + x := by
  induction n with
  | zero =>
    intro x v hx
    interval_cases x
    simp [int_to_bytes_be]
  | succ n ih =>
    intro x v hx
    have hdiv : x / 256 < 256 ^ n := by
      rw [Nat.div_lt_iff_lt_mul (by norm_num)]
      calc x < 256 ^ (n + 1) := hx
        _ = 256 ^ n * 256 := by rw [Nat.pow_succ]
    rw [int_to_bytes_be, List.foldl_append, ih (x / 256) v hdiv]
    have hmod : x % 256 < 256 := Nat.mod_lt x (by norm_num)
    simp only [List.foldl_cons, List.foldl_nil]
    rw [or_low_byte _ _ hmod]
    have hdm : 256 * (x / 256) + x % 256 = x := Nat.div_add_mod x 256
    calc (v * 256 ^ n + x / 256) * 256 + x % 256
        = v * (256 ^ n * 256) + (256 * (x / 256) + x % 256) := by ring
      _ = v * 256 ^ (n + 1) + x := by rw [hdm, Nat.pow_succ]

/-- Stripping leading zero bytes does not change the decoded value. -/
theorem foldl_or_dropWhile_zero (l : List Nat) :
    (l.dropWhile (fun b => b == 0)).foldl (fun value b => (value <<< 8) ||| b) 0 =
      l.foldl (fun value b => (value <<< 8) ||| b) 0 := by
  induction l with
  | nil => rfl
  | cons a t ih =>
    by_cases ha : a = 0
    · subst ha
      have hz : ((0 : Nat) <<< 8) ||| 0 = 0 := by decide
      simp only [List.dropWhile_cons, beq_self_eq_true, if_true, List.foldl_cons, hz]
      exact ih
    · have hne : (a == 0) = false := beq_eq_false_iff_ne.mpr ha
      simp [List.dropWhile_cons, hne]

/-- C8: encoding any 64-bit value with `encode_int64` emits the type
byte, a length byte and the stripped value bytes, and `decode_int` on
those value bytes with that length recovers the value exactly. -/
theorem c8_tlv_int_roundtrip (type_val x : Nat)
    (ht : type_val < 256) (hx : x < 18446744073709551616) :
    ∃ value_bytes : List Nat,
      encode_int64 [] type_val (x : Int) =
        .ok ([type_val, value_bytes.length] ++ value_bytes, 2 + value_bytes.length)
      ∧ decode_int value_bytes (value_bytes.length : Int) = .ok x := by
  by_cases hz : x = 0
  · subst hz
    refine ⟨[], ?_, by rfl⟩
    have h1 : ¬ ((0 : Int) < 0) := by omega
    have h2 : ¬ ((18446744073709551616 : Int) ≤ 0) := by omega
    have h3 : ¬ (256 ≤ type_val) := by omega
    simp [encode_int64, h1, h2, h3]
  · have hxq : (256 : Nat) ^ 8 = 18446744073709551616 := by norm_num
    have hfold : ((int_to_bytes_be 8 x).dropWhile (fun b => b == 0)).foldl
        (fun value b => (value <<< 8) ||| b) 0 = x := by
      rw [foldl_or_dropWhile_zero, foldl_or_int_to_bytes 8 x 0 (by omega)]
      ring
    set vb := (int_to_bytes_be 8 x).dropWhile (fun b => b == 0) with hvb
    have hlen8 : vb.length ≤ 8 := by
      calc vb.length ≤ (int_to_bytes_be 8 x).length :=
            (List.dropWhile_sublist (fun b => b == 0)).length_le
        _ = 8 := int_to_bytes_be_length 8 x
    have hne : vb ≠ [] := by
      intro hemp
      rw [hemp] at hfold
      simp at hfold
      exact hz hfold.symm
    have hpos : 0 < vb.length := List.length_pos.mpr hne
    refine ⟨vb, ?_, ?_⟩
    · have h1 : ¬ ((x : Int) < 0) := by omega
      have h2 : ¬ ((18446744073709551616 : Int) ≤ (x : Int)) := by omega
      have h3 : ¬ (256 ≤ type_val) := by omega
      have h4 : ¬ ((x : Int) = 0) := by omega
      have h5 : (x : Int).toNat = x := Int.toNat_natCast x
      simp only [encode_int64, h1, h2, h3, h4, if_false, h5]
      simp
    · have h1 : ¬ ((vb.length : Int) < 0) := by omega
      have h2 : ¬ ((vb.length : Int) = 0) := by omega
      have h3 : ¬ ((8 : Int) < (vb.length : Int)) := by omega
      have h4 : ¬ ((vb.length : Int) < (vb.length : Int)) := by omega
      simp only [decode_int, h1, h2, h3, h4, if_false]
      simp only [Int.toNat_natCast, List.take_length]
      rw [hfold]

/-- C8 witness: encoding 300 with type byte 1 emits value bytes
`[1, 44]` of length 2, and decoding recovers 300. -/
theorem c8_witness :
    (1 : Nat) < 256 ∧ (300 : Nat) < 18446744073709551616
    ∧ ∃ value_bytes : List Nat,
        encode_int64 [] 1 ((300 : Nat) : Int) =
          .ok ([1, value_bytes.length] ++ value_bytes, 2 + value_bytes.length)
        ∧ decode_int value_bytes (value_bytes.length : Int) = .ok 300 :=
  ⟨by decide, by decide, c8_tlv_int_roundtrip 1 300 (by decide) (by decide)⟩

/-! ### TLV type constants (ka9q/types.py)

`types.py` defines the class attributes below (among others).  It does
NOT define `RF_GAIN`, `RF_ATTEN`, `RF_AGC` or `OUTPUT_ENCODING`,
although control.py reads those attributes; such a read raises
`AttributeError` at the point of use and is modelled as an explicit
error in the functions below. -/

namespace StatusType

def EOL : Nat := 0

def COMMAND_TAG : Nat := 1

def OUTPUT_SSRC : Nat := 18

def OUTPUT_SAMPRATE : Nat := 20

def RADIO_FREQUENCY : Nat := 33

def LOW_EDGE : Nat := 39

def HIGH_EDGE : Nat := 40

def DEMOD_TYPE : Nat := 48

def AGC_ENABLE : Nat := 61

def GAIN : Nat := 66

def PRESET : Nat := 85

end StatusType

/-! ### Input validation (ka9q/control.py, lines 69-165) -/

/-- `_validate_ssrc` (control.py 70-75): SSRC must fit an unsigned
32-bit integer (the `isinstance` check is typing, subsumed by `Int`). -/
def _validate_ssrc (ssrc : Int) : Except PyErr Unit :=
  if ¬ (0 ≤ ssrc ∧ ssrc ≤ 0xFFFFFFFF) then
    .error (.validationError "Invalid SSRC")
  else .ok ()

/-- `_validate_frequency` (control.py 78-83): 0 < freq < 10 THz. -/
def _validate_frequency (freq_hz : ℚ) : Except PyErr Unit :=
  if ¬ (0 < freq_hz ∧ freq_hz < 10000000000000) then
    .error (.validationError "Invalid frequency")
  else .ok ()

/-- `_validate_sample_rate` (control.py 86-91): integer in
1 .. 100000000 (the Python bound `100e6` compares exactly on ints). -/
def _validate_sample_rate (rate : Int) : Except PyErr Unit :=
  if ¬ (1 ≤ rate ∧ rate ≤ 100000000) then
    .error (.validationError "Invalid sample rate")
  else .ok ()

/-- `_validate_timeout` (control.py 94-99): strictly positive. -/
def _validate_timeout (timeout : ℚ) : Except PyErr Unit :=
  if timeout ≤ 0 then .error (.validationError "Timeout must be positive")
  else .ok ()

/-- `_validate_gain` (control.py 102-107): -100 .. 100 dB. -/
def _validate_gain (gain_db : ℚ) : Except PyErr Unit :=
  if ¬ (-100 ≤ gain_db ∧ gain_db ≤ 100) then
    .error (.validationError "Invalid gain")
  else .ok ()

/-- Character class of the preset regex `[a-zA-Z0-9_-]`. -/
def preset_char_ok (c : Char) : Bool :=
  (0x61 ≤ c.toNat && c.toNat ≤ 0x7A) || (0x41 ≤ c.toNat && c.toNat ≤ 0x5A)
    || (0x30 ≤ c.toNat && c.toNat ≤ 0x39) || c.toNat = 0x5F || c.toNat = 0x2D

/-- `_validate_preset` (control.py 118-139): non-empty, at most 32
characters, no control characters (checked first, which also excludes
the trailing-newline corner case of the Python `$` anchor), and only
`[a-zA-Z0-9_-]`. -/
def _validate_preset (preset : String) : Except PyErr Unit :=
  if preset.length = 0 then .error (.validationError "Preset name cannot be empty")
  else if 32 < preset.length then .error (.validationError "Preset name too long")
  else if preset.toList.any (fun c => c.toNat < 32 || c.toNat = 127) then
    .error (.validationError "Preset name contains control characters")
  else if ¬ (preset.toList.all preset_char_ok) then
    .error (.validationError "only alphanumeric, dash, and underscore allowed")
  else .ok ()

/-! ### Command packets at TLV-item granularity

The command builders of `RadiodControl` are modelled as the sequence of
TLV items appended to `cmdbuffer`.  Integer items carry the validation
performed by `encode_int64`; float/double items carry their exact
rational value (their byte-level IEEE-754 bit packing via
`struct.pack` is outside this embedding and irrelevant to the claims,
which concern validation and whether a packet is sent at all).
`secrets.randbits(31)` command tags are passed as parameters.  A result
of `.ok items` means `send_command` is reached with exactly that
packet; `.error e` means the exception was raised before any send. -/

inductive CmdItem where
  | cmd
  | intv (type_val : Nat) (x : Nat)
  | doublev (type_val : Nat) (x : ℚ)
  | floatv (type_val : Nat) (x : ℚ)
  | stringv (type_val : Nat) (s : String)
  | eol
deriving DecidableEq, Repr

/-- `encode_int`/`encode_int64` at item granularity: same validation,
emitting the (type, value) pair. -/
def encode_int_item (type_val : Nat) (x : Int) : Except PyErr CmdItem :=
  if x < 0 then .error (.validationError "Cannot encode negative integer")
  else if 18446744073709551616 ≤ x then
    .error (.validationError "Integer too large for 64-bit encoding")
  else if 256 ≤ type_val then .error (.valueError "byte must be in range 0 to 256")
  else .ok (.intv type_val x.toNat)

/-- `encode_double` at item granularity: the packed 64-bit pattern is
always a valid `encode_int64` argument, so only the type byte can
fail. -/
def encode_double_item (type_val : Nat) (x : ℚ) : Except PyErr CmdItem :=
  if 256 ≤ type_val then .error (.valueError "byte must be in range 0 to 256")
  else .ok (.doublev type_val x)

/-- `encode_float` at item granularity. -/
def encode_float_item (type_val : Nat) (x : ℚ) : Except PyErr CmdItem :=
  if 256 ≤ type_val then .error (.valueError "byte must be in range 0 to 256")
  else .ok (.floatv type_val x)

/-- `encode_string` at item granularity (control.py 280-319): strings
of 65536 or more UTF-8 bytes raise `ValueError`. -/
def encode_string_item (type_val : Nat) (s : String) : Except PyErr CmdItem :=
  if 256 ≤ type_val then .error (.valueError "byte must be in range 0 to 256")
  else if s.utf8ByteSize < 65536 then .ok (.stringv type_val s)
  else .error (.valueError "String too long")

/-- ASCII case folding of one character, the relevant behaviour of
Python `str.lower` for preset names (which `_validate_preset`
restricted to ASCII `[a-zA-Z0-9_-]`; `create_channel` lowercases before
validation, but the comparison set is ASCII-only). -/
def char_lower (c : Char) : Char :=
  if 65 ≤ c.toNat ∧ c.toNat ≤ 90 then Char.ofNat (c.toNat + 32) else c

/-- `str.lower` over the characters of a string. -/
def str_lower (s : String) : String := String.mk (s.toList.map char_lower)

/-- `RadiodControl.set_sample_rate` (control.py 777-800): validate
SSRC and sample rate, then build and send one packet with
OUTPUT_SAMPRATE, OUTPUT_SSRC and COMMAND_TAG items. -/
def set_sample_rate (ssrc sample_rate : Int) (command_tag : Nat) :
    Except PyErr (List CmdItem) := do
  _validate_ssrc ssrc
  _validate_sample_rate sample_rate
  let i1 ← encode_int_item StatusType.OUTPUT_SAMPRATE sample_rate
  let i2 ← encode_int_item StatusType.OUTPUT_SSRC ssrc
  let i3 ← encode_int_item StatusType.COMMAND_TAG (command_tag : Int)
  .ok [.cmd, i1, i2, i3, .eol]

/-- `RadiodControl.create_channel` (control.py 927-1015): validate
SSRC, frequency, optional sample rate and gain, then build a single
packet (preset, demod type, frequency, optional sample rate — the
Python `if sample_rate:` truthiness also skips 0 —, AGC, gain, SSRC,
tag). -/
def create_channel (ssrc : Int) (frequency_hz : ℚ) (preset : String)
    (sample_rate : Option Int) (agc_enable : Int) (gain : ℚ) (command_tag : Nat) :
    Except PyErr (List CmdItem) := do
  _validate_ssrc ssrc
  _validate_frequency frequency_hz
  (match sample_rate with
   | some r => _validate_sample_rate r
   | none => pure ())
  _validate_gain gain
  _validate_preset preset
  let ipreset ← encode_string_item StatusType.PRESET preset
  let demod_type : Int :=
    if ["iq", "usb", "lsb", "cw", "am"].contains (str_lower preset) then 0 else 1
  let idemod ← encode_int_item StatusType.DEMOD_TYPE demod_type
  let ifreq ← encode_double_item StatusType.RADIO_FREQUENCY frequency_hz
  let rate_items ← (match sample_rate with
   | some r =>
     if r ≠ 0 then do
       let i ← encode_int_item StatusType.OUTPUT_SAMPRATE r
       pure [i]
     else pure []
   | none => pure ([] : List CmdItem))
  let iagc ← encode_int_item StatusType.AGC_ENABLE agc_enable
  let igain ← encode_double_item StatusType.GAIN gain
  let issrc ← encode_int_item StatusType.OUTPUT_SSRC ssrc
  let itag ← encode_int_item StatusType.COMMAND_TAG (command_tag : Int)
  .ok ([.cmd, ipreset, idemod, ifreq] ++ rate_items ++ [iagc, igain, issrc, itag, .eol])

/-- `RadiodControl.tune` (control.py 1155-1262), up to the command
packet it sends: validation, then the TLV items in source order.  The
`encoding`, `rf_gain` and `rf_atten` branches read
`StatusType.OUTPUT_ENCODING` / `RF_GAIN` / `RF_ATTEN`, attributes
`types.py` does not define, so supplying those arguments raises
`AttributeError`; `destination` only logs a warning.  The send/receive
retry loop after the build is external socket I/O and is not part of
the embedding. -/
def tune (ssrc : Int) (frequency_hz : Option ℚ) (preset : Option String)
    (sample_rate : Option Int) (low_edge high_edge : Option ℚ) (gain : Option ℚ)
    (agc_enable : Option Bool) (rf_gain rf_atten : Option ℚ) (encoding : Option Int)
    (timeout : ℚ) (command_tag : Nat) : Except PyErr (List CmdItem) := do
  _validate_ssrc ssrc
  (match frequency_hz with
   | some f => _validate_frequency f
   | none => pure ())
  (match sample_rate with
   | some r => _validate_sample_rate r
   | none => pure ())
  (match gain with
   | some g => _validate_gain g
   | none => pure ())
  _validate_timeout timeout
  let itag ← encode_int_item StatusType.COMMAND_TAG (command_tag : Int)
  let issrc ← encode_int_item StatusType.OUTPUT_SSRC ssrc
  let preset_items ← (match preset with
   | some p => do
     _validate_preset p
     let i ← encode_string_item StatusType.PRESET p
     pure [i]
   | none => pure ([] : List CmdItem))
  let rate_items ← (match sample_rate with
   | some r => do
     let i ← encode_int_item StatusType.OUTPUT_SAMPRATE r
     pure [i]
   | none => pure ([] : List CmdItem))
  let low_items ← (match low_edge with
   | some v => do
     let i ← encode_float_item StatusType.LOW_EDGE v
     pure [i]
   | none => pure ([] : List CmdItem))
  let high_items ← (match high_edge with
   | some v => do
     let i ← encode_float_item StatusType.HIGH_EDGE v
     pure [i]
   | none => pure ([] : List CmdItem))
  let freq_items ← (match frequency_hz with
   | some f => do
     let i ← encode_double_item StatusType.RADIO_FREQUENCY f
     pure [i]
   | none => pure ([] : List CmdItem))
  let gain_items ← (match gain with
   | some g => do
     let i1 ← encode_float_item StatusType.GAIN g
     let i2 ← encode_int_item StatusType.AGC_ENABLE 0
     pure [i1, i2]
   | none =>
     match agc_enable with
     | some b => do
       let i ← encode_int_item StatusType.AGC_ENABLE (if b then 1 else 0)
       pure [i]
     | none => pure ([] : List CmdItem))
  let _enc_items ← (match encoding with
   | some _ =>
     (.error (.attributeError "type object StatusType has no attribute OUTPUT_ENCODING")
       : Except PyErr (List CmdItem))
   | none => pure ([] : List CmdItem))
  let _rfg_items ← (match rf_gain with
   | some _ =>
     (.error (.attributeError "type object StatusType has no attribute RF_GAIN")
       : Except PyErr (List CmdItem))
   | none => pure ([] : List CmdItem))
  let _rfa_items ← (match rf_atten with
   | some _ =>
     (.error (.attributeError "type object StatusType has no attribute RF_ATTEN")
       : Except PyErr (List CmdItem))
   | none => pure ([] : List CmdItem))
  .ok ([.cmd, itag, issrc] ++ preset_items ++ rate_items ++ low_items ++ high_items
    ++ freq_items ++ gain_items ++ [.eol])

/-! ### C6 — sample-rate validation is a configuration-time error -/

/-- C6: with an in-range SSRC and tag, each of `set_sample_rate`,
`create_channel` and `tune` raises `ValidationError` before any command
is sent for every integer sample rate outside 1..100000000, and builds
(and hence sends) a packet for every integer sample rate in that range
(`create_channel` at frequency 14.074 MHz, preset "iq"; `tune` with
only the sample rate supplied and the default 5 s timeout). -/
theorem c6_sample_rate_validation (ssrc rate : Int) (command_tag : Nat)
    (hssrc : 0 ≤ ssrc ∧ ssrc ≤ 4294967295) (htag : command_tag < 2147483648) :
    ((1 ≤ rate ∧ rate ≤ 100000000) →
      (∃ p1, set_sample_rate ssrc rate command_tag = .ok p1)
      ∧ (∃ p2, create_channel ssrc 14074000 "iq" (some rate) 0 0 command_tag = .ok p2)
      ∧ (∃ p3, tune ssrc none none (some rate) none none none none none none none 5
          command_tag = .ok p3))
    ∧ (¬ (1 ≤ rate ∧ rate ≤ 100000000) →
      (∃ m1, set_sample_rate ssrc rate command_tag = .error (.validationError m1))
      ∧ (∃ m2, create_channel ssrc 14074000 "iq" (some rate) 0 0 command_tag =
          .error (.validationError m2))
      ∧ (∃ m3, tune ssrc none none (some rate) none none none none none none none 5
          command_tag = .error (.validationError m3))) := by
  have hv_ssrc : _validate_ssrc ssrc = .ok () := by
    simp [_validate_ssrc, hssrc.1, hssrc.2]
  have hv_freq : _validate_frequency 14074000 = .ok () := by
    simp [_validate_frequency]
    norm_num
  have hv_gain : _validate_gain 0 = .ok () := by
    simp [_validate_gain]
  have hv_timeout : _validate_timeout 5 = .ok () := by
    simp [_validate_timeout]
  have hv_preset : _validate_preset "iq" = .ok () := by rfl
  have htag_item : encode_int_item StatusType.COMMAND_TAG (command_tag : Int) =
      .ok (.intv StatusType.COMMAND_TAG command_tag) := by
    have h1 : ¬ ((command_tag : Int) < 0) := by omega
    have h2 : ¬ ((18446744073709551616 : Int) ≤ (command_tag : Int)) := by omega
    simp [encode_int_item, h1, h2, StatusType.COMMAND_TAG]
  have hssrc_item : encode_int_item StatusType.OUTPUT_SSRC ssrc =
      .ok (.intv StatusType.OUTPUT_SSRC ssrc.toNat) := by
    have h1 : ¬ (ssrc < 0) := by omega
    have h2 : ¬ ((18446744073709551616 : Int) ≤ ssrc) := by omega
    simp [encode_int_item, h1, h2, StatusType.OUTPUT_SSRC]
  constructor
  · rintro ⟨hr1, hr2⟩
    have hv_rate : _validate_sample_rate rate = .ok () := by
      simp [_validate_sample_rate, hr1, hr2]
    have hrate_item : encode_int_item StatusType.OUTPUT_SAMPRATE rate =
        .ok (.intv StatusType.OUTPUT_SAMPRATE rate.toNat) := by
      have h1 : ¬ (rate < 0) := by omega
      have h2 : ¬ ((18446744073709551616 : Int) ≤ rate) := by omega
      simp [encode_int_item, h1, h2, StatusType.OUTPUT_SAMPRATE]
    have hrne : rate ≠ 0 := by omega
    have e1 : set_sample_rate ssrc rate command_tag =
        .ok [.cmd, .intv StatusType.OUTPUT_SAMPRATE rate.toNat,
          .intv StatusType.OUTPUT_SSRC ssrc.toNat,
          .intv StatusType.COMMAND_TAG command_tag, .eol] := by
      simp [set_sample_rate, hv_ssrc, hv_rate, hrate_item, hssrc_item, htag_item]
    have hps : encode_string_item StatusType.PRESET "iq" =
        .ok (.stringv StatusType.PRESET "iq") := by rfl
    have hlow : str_lower "iq" = "iq" := by rfl
    have hdemod_item : encode_int_item StatusType.DEMOD_TYPE 0 =
        .ok (.intv StatusType.DEMOD_TYPE 0) := by rfl
    have hfreq_item : encode_double_item StatusType.RADIO_FREQUENCY 14074000 =
        .ok (.doublev StatusType.RADIO_FREQUENCY 14074000) := by rfl
    have hagc_item : encode_int_item StatusType.AGC_ENABLE 0 =
        .ok (.intv StatusType.AGC_ENABLE 0) := by rfl
    have hgain_item : encode_double_item StatusType.GAIN 0 =
        .ok (.doublev StatusType.GAIN 0) := by rfl
    have e2 : create_channel ssrc 14074000 "iq" (some rate) 0 0 command_tag =
        .ok [.cmd, .stringv StatusType.PRESET "iq", .intv StatusType.DEMOD_TYPE 0,
          .doublev StatusType.RADIO_FREQUENCY 14074000,
          .intv StatusType.OUTPUT_SAMPRATE rate.toNat,
          .intv StatusType.AGC_ENABLE 0, .doublev StatusType.GAIN 0,
          .intv StatusType.OUTPUT_SSRC ssrc.toNat,
          .intv StatusType.COMMAND_TAG command_tag, .eol] := by
      simp [create_channel, hv_ssrc, hv_freq, hv_rate, hv_gain, hv_preset, hrne,
        hps, hlow, hdemod_item, hfreq_item, hagc_item, hgain_item,
        hrate_item, hssrc_item, htag_item]
    have e3 : tune ssrc none none (some rate) none none none none none none none 5
        command_tag =
        .ok [.cmd, .intv StatusType.COMMAND_TAG command_tag,
          .intv StatusType.OUTPUT_SSRC ssrc.toNat,
          .intv StatusType.OUTPUT_SAMPRATE rate.toNat, .eol] := by
      simp [tune, hv_ssrc, hv_rate, hv_timeout, hrate_item, hssrc_item, htag_item]
    exact ⟨⟨_, e1⟩, ⟨_, e2⟩, ⟨_, e3⟩⟩
  · intro hr
    have hm : _validate_sample_rate rate =
        .error (.validationError "Invalid sample rate") := by
      simp [_validate_sample_rate, hr]
    have e1 : set_sample_rate ssrc rate command_tag =
        .error (.validationError "Invalid sample rate") := by
      simp [set_sample_rate, hv_ssrc, hm]
    have e2 : create_channel ssrc 14074000 "iq" (some rate) 0 0 command_tag =
        .error (.validationError "Invalid sample rate") := by
      simp [create_channel, hv_ssrc, hv_freq, hm]
    have e3 : tune ssrc none none (some rate) none none none none none none none 5
        command_tag = .error (.validationError "Invalid sample rate") := by
      simp [tune, hv_ssrc, hm]
    exact ⟨⟨_, e1⟩, ⟨_, e2⟩, ⟨_, e3⟩⟩

/-- C6 witness: SSRC 1234 and tag 7 are in range; sample rate 48000 is
accepted by all three functions and sample rate 0 is rejected by all
three with `ValidationError`. -/
theorem c6_witness :
    ((0 : Int) ≤ 1234 ∧ (1234 : Int) ≤ 4294967295) ∧ (7 : Nat) < 2147483648
    ∧ (((1 ≤ (48000 : Int) ∧ (48000 : Int) ≤ 100000000) →
        (∃ p1, set_sample_rate 1234 48000 7 = .ok p1)
        ∧ (∃ p2, create_channel 1234 14074000 "iq" (some 48000) 0 0 7 = .ok p2)
        ∧ (∃ p3, tune 1234 none none (some 48000) none none none none none none none 5 7 = .ok p3))
      ∧ (¬ (1 ≤ (48000 : Int) ∧ (48000 : Int) ≤ 100000000) →
        (∃ m1, set_sample_rate 1234 48000 7 = .error (.validationError m1))
        ∧ (∃ m2, create_channel 1234 14074000 "iq" (some 48000) 0 0 7 = .error (.validationError m2))
        ∧ (∃ m3, tune 1234 none none (some 48000) none none none none none none none 5 7 =
            .error (.validationError m3))))
    ∧ (((1 ≤ (0 : Int) ∧ (0 : Int) ≤ 100000000) →
        (∃ p1, set_sample_rate 1234 0 8 = .ok p1)
        ∧ (∃ p2, create_channel 1234 14074000 "iq" (some 0) 0 0 8 = .ok p2)
        ∧ (∃ p3, tune 1234 none none (some 0) none none none none none none none 5 8 = .ok p3))
      ∧ (¬ (1 ≤ (0 : Int) ∧ (0 : Int) ≤ 100000000) →
        (∃ m1, set_sample_rate 1234 0 8 = .error (.validationError m1))
        ∧ (∃ m2, create_channel 1234 14074000 "iq" (some 0) 0 0 8 = .error (.validationError m2))
        ∧ (∃ m3, tune 1234 none none (some 0) none none none none none none none 5 8 =
            .error (.validationError m3)))) :=
  ⟨⟨by norm_num, by norm_num⟩, by norm_num,
    c6_sample_rate_validation 1234 48000 7 ⟨by norm_num, by norm_num⟩ (by norm_num),
    c6_sample_rate_validation 1234 0 8 ⟨by norm_num, by norm_num⟩ (by norm_num)⟩

/-! ### Status-response decoding (control.py `_decode_status_response`)

Decoded TLV values.  Floats are kept as the reconstructed big-endian
IEEE-754 byte lists that `struct.unpack` would consume (`decode_float`
pads to 4 bytes, `decode_double` to 8); no float arithmetic happens on
the modelled paths.  `sockv` models the dictionary `decode_socket`
returns; `emptyDict` models the `{}` default of `status.get`. -/

inductive Value where
  | intv (n : Nat)
  | boolv (b : Bool)
  | f32 (bytes : List Nat)
  | f64 (bytes : List Nat)
  | strv (s : String)
  | sockv (family address : String) (port : Nat)
  | emptyDict
deriving DecidableEq, Repr

/-- Python dict assignment `d[k] = v`: replace in place or append. -/
def dict_set {κ α : Type} [DecidableEq κ] (d : List (κ × α)) (k : κ) (v : α) :
    List (κ × α) :=
  match d with
  | [] => [(k, v)]
  | (k2, v2) :: rest => if k2 = k then (k2, v) :: rest else (k2, v2) :: dict_set rest k v

/-- Python `d.get(k)`: first binding of `k`, if any. -/
def dict_get {κ α : Type} [DecidableEq κ] : List (κ × α) → κ → Option α
  | [], _ => none
  | (k2, v) :: rest, k => if k2 = k then some v else dict_get rest k

/-- `decode_int32` (control.py 372-383): alias for `decode_int`. -/
def decode_int32 (data : List Nat) (length : Int) : Except PyErr Nat :=
  decode_int data length

/-- `decode_bool` (control.py 442-453): `decode_int(data, length) != 0`. -/
def decode_bool (data : List Nat) (length : Int) : Except PyErr Value := do
  let v ← decode_int data length
  .ok (.boolv (v != 0))

/-- `decode_float` (control.py 386-411): validates the length, truncates
lengths over 4, and reconstructs the 4-byte big-endian representation
by left-padding with zero bytes; the `struct.unpack` bit pattern is kept
as those bytes. -/
def decode_float (data : List Nat) (length : Int) : Except PyErr Value :=
  if length < 0 then .error (.validationError "Negative length in decode_float")
  else
    let length2 := if 4 < length then 4 else length
    if (data.length : Int) < length2 then .error (.validationError "Insufficient data")
    else .ok (.f32 (List.replicate (4 - length2.toNat) 0 ++ data.take length2.toNat))

/-- `decode_double` (control.py 414-439): as `decode_float` with width 8. -/
def decode_double (data : List Nat) (length : Int) : Except PyErr Value :=
  if length < 0 then .error (.validationError "Negative length in decode_double")
  else
    let length2 := if 8 < length then 8 else length
    if (data.length : Int) < length2 then .error (.validationError "Insufficient data")
    else .ok (.f64 (List.replicate (8 - length2.toNat) 0 ++ data.take length2.toNat))

/-- The per-item dispatch of `_decode_status_response`
(control.py 1376-1407), in source `elif` order.  `types.py` defines
`COMMAND_TAG = 1`, `RADIO_FREQUENCY = 33`, `OUTPUT_SSRC = 18`,
`AGC_ENABLE = 61` and `GAIN = 66`, but NOT `RF_GAIN`, so for every other
type value the chain reaches the comparison
`type_val == StatusType.RF_GAIN` and raises `AttributeError`; the
later arms (`RF_ATTEN`, `RF_AGC`, `PRESET`, `LOW_EDGE`, `HIGH_EDGE`,
`NOISE_DENSITY`, `BASEBAND_POWER`, `OUTPUT_SAMPRATE`, `OUTPUT_ENCODING`,
`OUTPUT_DATA_DEST_SOCKET`) are unreachable. -/
def status_item_dispatch (type_val : Nat) (data : List Nat) (optlen : Nat)
    (status : List (String × Value)) : Except PyErr (List (String × Value)) :=
  if type_val = StatusType.COMMAND_TAG then do
    let v ← decode_int32 data (optlen : Int)
    .ok (dict_set status "command_tag" (.intv v))
  else if type_val = StatusType.RADIO_FREQUENCY then do
    let v ← decode_double data (optlen : Int)
    .ok (dict_set status "frequency" v)
  else if type_val = StatusType.OUTPUT_SSRC then do
    let v ← decode_int32 data (optlen : Int)
    .ok (dict_set status "ssrc" (.intv v))
  else if type_val = StatusType.AGC_ENABLE then do
    let v ← decode_bool data (optlen : Int)
    .ok (dict_set status "agc_enable" v)
  else if type_val = StatusType.GAIN then do
    let v ← decode_float data (optlen : Int)
    .ok (dict_set status "gain" v)
  else .error (.attributeError "type object StatusType has no attribute RF_GAIN")

/-- The extended-length reader of `_decode_status_response`
(control.py 1361-1368): consume up to `length_of_length` bytes
big-endian, stopping early at the end of the buffer. -/
def read_ext_len : Nat → Nat → List Nat → Nat × List Nat
  | 0, acc, rest => (acc, rest)
  | _ + 1, acc, [] => (acc, [])
  | k + 1, acc, b :: rest => read_ext_len k ((acc <<< 8) ||| b) rest

/-- One iteration of the `while cp < len(buffer)` scan of
`_decode_status_response` (control.py 1344-1409), on the unread suffix
of the buffer: `.ok none` is a loop exit (end of buffer, EOL, truncated
length, or an item overrunning the buffer — in each case the current
dict is returned), `.ok (some _)` continues with the updated dict and
the suffix after the item. -/
def status_step (buf : List Nat) (status : List (String × Value)) :
    Except PyErr (Option ((List (String × Value)) × List Nat)) :=
  match buf with
  | [] => .ok none
  | type_val :: rest =>
    if type_val = StatusType.EOL then .ok none
    else
      match rest with
      | [] => .ok none
      | optlen0 :: rest2 =>
        let elr :=
          if optlen0 &&& 0x80 ≠ 0 then read_ext_len (optlen0 &&& 0x7F) 0 rest2
          else (optlen0, rest2)
        if elr.2.length < elr.1 then .ok none
        else do
          let status2 ← status_item_dispatch type_val (elr.2.take elr.1) elr.1 status
          .ok (some (status2, elr.2.drop elr.1))

/-- `read_ext_len` only consumes from its input suffix. -/
theorem read_ext_len_len_le : ∀ (k acc : Nat) (l : List Nat),
    (read_ext_len k acc l).2.length ≤ l.length := by
  intro k
  induction k with
  | zero => intro acc l; simp [read_ext_len]
  | succ k ih =>
    intro acc l
    cases l with
    | nil => simp [read_ext_len]
    | cons b rest =>
      calc (read_ext_len (k + 1) acc (b :: rest)).2.length
          = (read_ext_len k ((acc <<< 8) ||| b) rest).2.length := rfl
        _ ≤ rest.length := ih _ rest
        _ ≤ (b :: rest).length := by simp

/-- A continuing status step strictly shrinks the buffer. -/
theorem status_step_shrinks (buf : List Nat) (status st2 : List (String × Value))
    (buf2 : List Nat) (h : status_step buf status = .ok (some (st2, buf2))) :
    buf2.length < buf.length := by
  cases buf with
  | nil => simp [status_step] at h
  | cons type_val rest =>
    by_cases he : type_val = StatusType.EOL
    · simp [status_step, he] at h
    · cases rest with
      | nil => simp [status_step, he] at h
      | cons optlen0 rest2 =>
        simp only [status_step, he, if_false] at h
        set elr :=
          if optlen0 &&& 0x80 ≠ 0 then read_ext_len (optlen0 &&& 0x7F) 0 rest2
          else (optlen0, rest2) with helr
        have hlen : elr.2.length ≤ rest2.length := by
          rw [helr]
          by_cases hext : optlen0 &&& 0x80 ≠ 0
          · rw [if_pos hext]
            exact read_ext_len_len_le _ _ _
          · rw [if_neg hext]
        by_cases hover : elr.2.length < elr.1
        · simp [hover] at h
        · simp only [hover, if_false] at h
          cases hd : status_item_dispatch type_val (elr.2.take elr.1) elr.1 status with
          | error e => rw [hd] at h; simp at h
          | ok st3 =>
            rw [hd] at h
            simp at h
            obtain ⟨h1, h2⟩ := h
            subst h2
            have : (elr.2.drop elr.1).length ≤ elr.2.length := by
              simp [List.length_drop]
            simp only [List.length_cons]
            omega

/-- The TLV scan loop of `_decode_status_response`. -/
def status_loop (buf : List Nat) (status : List (String × Value)) :
    Except PyErr (List (String × Value)) :=
  match h : status_step buf status with
  | .error e => .error e
  | .ok none => .ok status
  | .ok (some (st2, buf2)) => status_loop buf2 st2
termination_by buf.length
decreasing_by exact status_step_shrinks buf status st2 buf2 h

/-- The SNR post-processing after the TLV scan (control.py 1411-1432).
Its guard requires the keys `baseband_power`, `low_edge`, `high_edge`
and `noise_density`, but the dispatch arms that would insert those keys
lie after the comparison with the undefined `StatusType.RF_GAIN`
attribute, so no scan result ever satisfies the guard
(`status_loop_no_low_edge` below); the floating-point SNR computation
inside the guard (itself wrapped in `try/except` in the source, adding
at most an `snr` key) is therefore dead code and not modelled beyond
the guard. -/
def snr_step (status : List (String × Value)) : List (String × Value) :=
  if (["baseband_power", "low_edge", "high_edge", "noise_density"].all
      (fun k => (dict_get status k).isSome)) then status
  else status

/-- `RadiodControl._decode_status_response` (control.py 1327-1436):
empty buffers and non-status packets (first byte not 0) yield the empty
dict; otherwise the TLV items are scanned from offset 1 and the SNR
step is applied. -/
def _decode_status_response (buffer : List Nat) : Except PyErr (List (String × Value)) :=
  if buffer.length = 0 ∨ buffer.headD 0 ≠ 0 then .ok []
  else do
    let status ← status_loop buffer.tail []
    .ok (snr_step status)

/-- `dict_set` with a different key preserves the absence of a key. -/
theorem dict_set_get_none {κ α : Type} [DecidableEq κ]
    (d : List (κ × α)) (k : κ) (v : α) (k2 : κ) (hne : k ≠ k2)
    (h : dict_get d k2 = none) : dict_get (dict_set d k v) k2 = none := by
  induction d with
  | nil => simp [dict_set, dict_get, hne]
  | cons p rest ih =>
    obtain ⟨ka, va⟩ := p
    by_cases hk : ka = k2
    · simp [dict_get, hk] at h
    · simp only [dict_get, hk, if_false] at h
      by_cases hk2 : ka = k
      · simp [dict_set, dict_get, hk2, hne, h]
      · simp [dict_set, dict_get, hk2, hk, ih h]

/-- The dispatch never inserts a `low_edge` key (its arm is unreachable
behind the `RF_GAIN` AttributeError). -/
theorem status_item_dispatch_no_low_edge (type_val : Nat) (data : List Nat)
    (optlen : Nat) (status st2 : List (String × Value))
    (hd : status_item_dispatch type_val data optlen status = .ok st2)
    (h : dict_get status "low_edge" = none) :
    dict_get st2 "low_edge" = none := by
  unfold status_item_dispatch at hd
  split at hd
  · cases hv : decode_int32 data (optlen : Int) with
    | error e => rw [hv] at hd; simp at hd
    | ok v =>
      rw [hv] at hd; simp at hd
      rw [← hd]
      exact dict_set_get_none _ _ _ _ (by decide) h
  · split at hd
    · cases hv : decode_double data (optlen : Int) with
      | error e => rw [hv] at hd; simp at hd
      | ok v =>
        rw [hv] at hd; simp at hd
        rw [← hd]
        exact dict_set_get_none _ _ _ _ (by decide) h
    · split at hd
      · cases hv : decode_int32 data (optlen : Int) with
        | error e => rw [hv] at hd; simp at hd
        | ok v =>
          rw [hv] at hd; simp at hd
          rw [← hd]
          exact dict_set_get_none _ _ _ _ (by decide) h
      · split at hd
        · cases hv : decode_bool data (optlen : Int) with
          | error e => rw [hv] at hd; simp at hd
          | ok v =>
            rw [hv] at hd; simp at hd
            rw [← hd]
            exact dict_set_get_none _ _ _ _ (by decide) h
        · split at hd
          · cases hv : decode_float data (optlen : Int) with
            | error e => rw [hv] at hd; simp at hd
            | ok v =>
              rw [hv] at hd; simp at hd
              rw [← hd]
              exact dict_set_get_none _ _ _ _ (by decide) h
          · simp at hd

/-- No scan result carries a `low_edge` key, so the SNR guard is dead
code. -/
theorem status_loop_no_low_edge : ∀ (n : Nat) (buf : List Nat)
    (status d : List (String × Value)), buf.length ≤ n →
    dict_get status "low_edge" = none → status_loop buf status = .ok d →
    dict_get d "low_edge" = none := by
  intro n
  induction n with
  | zero =>
    intro buf status d hlen h hloop
    have hbuf : buf = [] := by
      cases buf with
      | nil => rfl
      | cons a t => simp at hlen
    subst hbuf
    rw [status_loop] at hloop
    simp [status_step] at hloop
    rw [← hloop]
    exact h
  | succ n ih =>
    intro buf status d hlen h hloop
    rw [status_loop] at hloop
    cases hs : status_step buf status with
    | error e => rw [hs] at hloop; simp at hloop
    | ok r =>
      cases r with
      | none =>
        rw [hs] at hloop
        simp at hloop
        rw [← hloop]
        exact h
      | some p =>
        obtain ⟨st2, buf2⟩ := p
        rw [hs] at hloop
        simp at hloop
        have hshrink := status_step_shrinks buf status st2 buf2 hs
        have hst2 : dict_get st2 "low_edge" = none := by
          cases buf with
          | nil => simp [status_step] at hs
          | cons type_val rest =>
            by_cases he : type_val = StatusType.EOL
            · simp [status_step, he] at hs
            · cases rest with
              | nil => simp [status_step, he] at hs
              | cons optlen0 rest2 =>
                simp only [status_step, he, if_false] at hs
                set elr :=
                  if optlen0 &&& 0x80 ≠ 0 then read_ext_len (optlen0 &&& 0x7F) 0 rest2
                  else (optlen0, rest2) with helr
                by_cases hover : elr.2.length < elr.1
                · simp [hover] at hs
                · simp only [hover, if_false] at hs
                  cases hd : status_item_dispatch type_val (elr.2.take elr.1) elr.1 status with
                  | error e => rw [hd] at hs; simp at hs
                  | ok st3 =>
                    rw [hd] at hs
                    simp at hs
                    obtain ⟨h1, _⟩ := hs
                    rw [← h1]
                    exact status_item_dispatch_no_low_edge _ _ _ _ _ hd h
        exact ih buf2 st2 d (by omega) hst2 hloop

/-- A scan step error propagates out of the loop. -/
theorem status_loop_step_error (buf : List Nat) (st : List (String × Value))
    (e : PyErr) (h : status_step buf st = .error e) : status_loop buf st = .error e := by
  unfold status_loop
  split
  · rename_i e2 heq
    rw [h] at heq
    injection heq with h3
    rw [h3]
  · rename_i heq
    rw [h] at heq
    simp at heq
  · rename_i st2 buf2 heq
    rw [h] at heq
    simp at heq

/-- C9 (code bug): decoding the status packet `[0x00, 0x03, 0x00]` — a
well-formed buffer holding one `GPS_TIME` (type 3) item of length 0 —
raises `AttributeError` instead of returning a dict, because the
dispatch chain reaches `StatusType.RF_GAIN`, an attribute `types.py`
never defines; the same happens for every TLV type other than
1, 18, 33, 61, 66. -/
theorem c9_code_bug :
    _decode_status_response [0, 3, 0] =
      .error (.attributeError "type object StatusType has no attribute RF_GAIN") := by
  have h1 : status_step [3, 0] ([] : List (String × Value)) =
      .error (.attributeError "type object StatusType has no attribute RF_GAIN") := by rfl
  have h2 : status_loop [3, 0] ([] : List (String × Value)) =
      .error (.attributeError "type object StatusType has no attribute RF_GAIN") :=
    status_loop_step_error _ _ _ h1
  unfold _decode_status_response
  rw [if_neg (by simp)]
  simp only [List.tail_cons]
  rw [h2]
  rfl

/-! ### C10 — native discovery never reports stream id 0 -/

/-- Python truthiness of decoded values: `not ssrc` skips 0, `None`
being handled by the preceding `get`.  Float bytes are falsy exactly for
IEEE-754 ±0.0 (all bits clear except possibly the sign bit). -/
def float_bytes_zero (bytes : List Nat) : Bool :=
  match bytes with
  | [] => true
  | b :: rest => (b &&& 0x7F == 0) && rest.all (fun x => x == 0)

/-- Truthiness of a decoded `Value`. -/
def Value.truthy : Value → Bool
  | .intv n => n != 0
  | .boolv b => b
  | .f32 bytes => ! float_bytes_zero bytes
  | .f64 bytes => ! float_bytes_zero bytes
  | .strv s => s.length != 0
  | .sockv _ _ _ => true
  | .emptyDict => false

/-- `ChannelInfo` (discovery.py 23-32) as populated by
`discover_channels_native` (discovery.py 159-167): the decoded values
with the `status.get` defaults — `0.0` is the all-zero IEEE-754 double
and `float("-inf")` is `FF F0 00 00 00 00 00 00`. -/
structure ChannelInfo where
  ssrc : Value
  preset : Value
  sample_rate : Value
  frequency : Value
  snr : Value
  multicast_address : String
  port : Nat
deriving DecidableEq, Repr

/-- One received packet in `discover_channels_native`
(discovery.py 117-178): skip non-status packets, decode (any exception
is caught by the surrounding `try`/`except` and the packet skipped),
skip when the decoded `ssrc` is missing or falsy (`if not ssrc`),
otherwise build a `ChannelInfo` and store it keyed by the ssrc value
(both the new-channel and update branches perform the same
assignment). -/
def discover_step (channels : List (Value × ChannelInfo)) (buffer : List Nat) :
    List (Value × ChannelInfo) :=
  if buffer.length = 0 ∨ buffer.headD 0 ≠ 0 then channels
  else
    match _decode_status_response buffer with
    | .error _ => channels
    | .ok status =>
      match dict_get status "ssrc" with
      | none => channels
      | some v =>
        if ¬ v.truthy then channels
        else
          let dest := (dict_get status "destination").getD .emptyDict
          let mcast_addr := match dest with
            | .sockv _ a _ => a
            | _ => ""
          let port := match dest with
            | .sockv _ _ p => p
            | _ => 0
          let info : ChannelInfo := {
            ssrc := v
            preset := (dict_get status "preset").getD (.strv "unknown")
            sample_rate := (dict_get status "sample_rate").getD (.intv 0)
            frequency := (dict_get status "frequency").getD (.f64 [0, 0, 0, 0, 0, 0, 0, 0])
            snr := (dict_get status "snr").getD (.f64 [0xFF, 0xF0, 0, 0, 0, 0, 0, 0])
            multicast_address := mcast_addr
            port := port }
          dict_set channels v info

/-- `discover_channels_native` (discovery.py 81-191) over the finite
sequence of packets received during the listen window. -/
def discover_channels_native (buffers : List (List Nat)) : List (Value × ChannelInfo) :=
  buffers.foldl discover_step []

/-- A discovery step never inserts the key 0. -/
theorem discover_step_no_zero (channels : List (Value × ChannelInfo))
    (buffer : List Nat) (h : dict_get channels (Value.intv 0) = none) :
    dict_get (discover_step channels buffer) (Value.intv 0) = none := by
  unfold discover_step
  split
  · exact h
  · split
    · exact h
    · split
      · exact h
      · rename_i status v hv
        by_cases ht : v.truthy
        · simp only [ht, not_true, if_false]
          have hne : v ≠ Value.intv 0 := by
            intro hv0
            rw [hv0] at ht
            simp [Value.truthy] at ht
          exact dict_set_get_none _ _ _ _ hne h
        · simp [ht, h]

/-- C10: whatever status packets arrive, the channel dictionary built
by `discover_channels_native` never contains the key 0 — packets whose
decoded `ssrc` is absent or 0 are skipped. -/
theorem c10_no_zero_ssrc_key (buffers : List (List Nat)) :
    dict_get (discover_channels_native buffers) (Value.intv 0) = none := by
  suffices h : ∀ channels, dict_get channels (Value.intv 0) = none →
      dict_get (buffers.foldl discover_step channels) (Value.intv 0) = none by
    exact h [] rfl
  induction buffers with
  | nil => intro channels h; exact h
  | cons b bs ih =>
    intro channels h
    exact ih (discover_step channels b) (discover_step_no_zero channels b h)

end Ka9q
